import Mathlib

/-!
Verification of the switchboard-on-demand pull-feed core (`src/lib.rs`):
the discriminator-checked zero-copy decoder for `PullFeedAccountData`,
the staleness-filtered median aggregation `get_value`, the stored-result
accessors, and `lower_bound_median`.

Bytes are modelled as `Nat` (each `< 256` in well-formed buffers), machine
integers as `Nat`/`Int` with explicit wrapping modulo `2 ^ 64` where the
source's `u64` arithmetic can wrap.  `rust_decimal::Decimal` built via
`from_i128_with_scale` is modelled as an exact mantissa/scale pair.
-/

set_option maxRecDepth 4000

/-- Fixed-point scale used throughout the feed (`PRECISION` in the source). -/
def PRECISION : Nat := 18

/-- Model of `rust_decimal::Decimal` as produced by `from_i128_with_scale`:
an integer mantissa together with a decimal scale. -/
structure Decimal where
  mantissa : Int
  scale : Nat
deriving DecidableEq

/-- `Decimal::from_i128_with_scale(num, scale)`. -/
def Decimal.from_i128_with_scale (num : Int) (scale : Nat) : Decimal :=
  ⟨num, scale⟩

/-- The error enumeration of the crate (`OnDemandError`). -/
inductive OnDemandError where
  | Generic
  | AccountBorrowError
  | AccountNotFound
  | AnchorParse
  | AnchorParseError
  | CheckSizeError
  | DecimalConversionError
  | DecryptError
  | EventListenerRoutineFailure
  | EvmError
  | FunctionResultIxIncorrectTargetChain
  | HeartbeatRoutineFailure
  | IntegerOverflowError
  | InvalidChain
  | InvalidData
  | InvalidDiscriminator
  | InvalidInstructionError
  | InvalidKeypairFile
  | InvalidNativeMint
  | InvalidQuote
  | InvalidQuoteError
  | InvalidSignature
  | IpfsNetworkError
  | IpfsParseError
  | KeyParseError
  | MrEnclaveMismatch
  | NetworkError
  | ParseError
  | PdaDerivationError
  | QuoteParseError
  | QvnTxSendFailure
  | SgxError
  | SgxWriteError
  | SolanaBlockhashError
  | SolanaMissingSigner
  | SolanaPayerSignerMissing
  | SolanaPayerMismatch
  | SolanaInstructionOverflow
  | SolanaInstructionsEmpty
  | TxCompileErr
  | TxDeserializationError
  | TxFailure
  | Unexpected
  | SolanaSignError
  | IoError
  | KeyDerivationFailed
  | InvalidSecretKey
  | EnvVariableMissing
  | AccountDeserializeError
  | NotEnoughSamples
  | IllegalFeedValue
  | CustomMessage (msg : String)
  | SwitchboardRandomnessTooOld
  | AddressLookupTableFetchError
  | AddressLookupTableDeserializeError

/-- The external clock collaborator (`solana_program::clock::Clock`); only the
current slot is consumed by this core. -/
structure Clock where
  slot : Nat
deriving DecidableEq

/-- `u64` subtraction `a - b` with the source's release-mode semantics:
wrapping modulo `2 ^ 64`. -/
def u64_wrapping_sub (a b : Nat) : Nat :=
  (a + (2 ^ 64 - b % 2 ^ 64)) % 2 ^ 64

/-- One oracle submission (`OracleSubmission`): a 32-byte oracle pubkey,
a `u64` slot, 8 padding bytes and an `i128` value. -/
structure OracleSubmission where
  oracle : List Nat
  slot : Nat
  padding1 : List Nat
  value : Int
deriving DecidableEq

/-- `OracleSubmission::is_empty`: the slot-zero sentinel test. -/
def OracleSubmission.is_empty (self : OracleSubmission) : Bool :=
  self.slot == 0

/-- The stored aggregate snapshot (`CurrentResult`): six `i128` statistics,
8 padding bytes and three `u64` slots. -/
structure CurrentResult where
  value : Int
  std_dev : Int
  mean : Int
  range : Int
  min_value : Int
  max_value : Int
  padding1 : List Nat
  slot : Nat
  min_slot : Nat
  max_slot : Nat
deriving DecidableEq

/-- `CurrentResult::value()`. -/
def CurrentResult.value? (self : CurrentResult) : Option Decimal :=
  if self.slot = 0 then none
  else some (Decimal.from_i128_with_scale self.value PRECISION)

/-- `CurrentResult::std_dev()`. -/
def CurrentResult.std_dev? (self : CurrentResult) : Option Decimal :=
  if self.slot = 0 then none
  else some (Decimal.from_i128_with_scale self.std_dev PRECISION)

/-- `CurrentResult::mean()`. -/
def CurrentResult.mean? (self : CurrentResult) : Option Decimal :=
  if self.slot = 0 then none
  else some (Decimal.from_i128_with_scale self.mean PRECISION)

/-- `CurrentResult::range()`. -/
def CurrentResult.range? (self : CurrentResult) : Option Decimal :=
  if self.slot = 0 then none
  else some (Decimal.from_i128_with_scale self.range PRECISION)

/-- `CurrentResult::min_value()`. -/
def CurrentResult.min_value? (self : CurrentResult) : Option Decimal :=
  if self.slot = 0 then none
  else some (Decimal.from_i128_with_scale self.min_value PRECISION)

/-- `CurrentResult::max_value()`. -/
def CurrentResult.max_value? (self : CurrentResult) : Option Decimal :=
  if self.slot = 0 then none
  else some (Decimal.from_i128_with_scale self.max_value PRECISION)

/-- `CurrentResult::result_slot()`. -/
def CurrentResult.result_slot? (self : CurrentResult) : Option Nat :=
  if self.slot = 0 then none
  else some self.slot

/-- `CurrentResult::min_slot()`. -/
def CurrentResult.min_slot? (self : CurrentResult) : Option Nat :=
  if self.slot = 0 then none
  else some self.min_slot

/-- `CurrentResult::max_slot()`. -/
def CurrentResult.max_slot? (self : CurrentResult) : Option Nat :=
  if self.slot = 0 then none
  else some self.max_slot

/-- A compact historical snapshot (`CompactResult`).  The two `f32` fields are
kept as their raw little-endian 32-bit patterns, which is all the layout-level
claims consume. -/
structure CompactResult where
  std_dev : Nat
  mean : Nat
  slot : Nat
deriving DecidableEq

/-- The decoded pull-feed record (`PullFeedAccountData`), fields in declared
`repr(C)` order. -/
structure PullFeedAccountData where
  submissions : List OracleSubmission
  authority : List Nat
  queue : List Nat
  feed_hash : List Nat
  initialized_at : Int
  permissions : Nat
  max_variance : Nat
  min_responses : Nat
  name : List Nat
  padding1 : List Nat
  historical_result_idx : Nat
  min_sample_size : Nat
  last_update_timestamp : Int
  lut_slot : Nat
  _reserved1 : List Nat
  result : CurrentResult
  max_staleness : Nat
  padding2 : List Nat
  historical_results : List CompactResult
  _ebuf4 : List Nat
  _ebuf3 : List Nat
  _ebuf2 : List Nat
deriving DecidableEq

/-- `lower_bound_median` in state-passing form: the Rust function sorts the
borrowed vector in place, so the first component is the vector as the caller
sees it after the call, the second the returned value. -/
def lower_bound_median_state (numbers : List Int) : List Int × Option Int :=
  let sorted := List.insertionSort (fun a b => a ≤ b) numbers
  (sorted, if sorted.length = 0 then none else sorted[sorted.length / 2]?)

/-- `lower_bound_median`: sort ascending, return the element at index
`len / 2`, or `None` for the empty list. -/
def lower_bound_median (numbers : List Int) : Option Int :=
  (lower_bound_median_state numbers).2

/-- The populated-prefix, freshness-filtered submission list built at the top
of `PullFeedAccountData::get_value` (lines 213-218 of the source). -/
def PullFeedAccountData.retained (self : PullFeedAccountData)
    (clock_slot max_staleness : Nat) : List OracleSubmission :=
  (self.submissions.takeWhile (fun s => ! s.is_empty)).filter
    (fun s => decide (u64_wrapping_sub clock_slot max_staleness < s.slot))

/-- `PullFeedAccountData::get_value`. -/
def PullFeedAccountData.get_value (self : PullFeedAccountData) (clock : Clock)
    (max_staleness : Nat) (min_samples : Nat) (only_positive : Bool) :
    Except OnDemandError Decimal :=
  let submissions := self.retained clock.slot max_staleness
  if submissions.length < min_samples then
    .error .NotEnoughSamples
  else
    match lower_bound_median (submissions.map (fun s => s.value)) with
    | none => .error .NotEnoughSamples
    | some median =>
      if only_positive && decide (median ≤ 0) then
        .error .IllegalFeedValue
      else
        .ok (Decimal.from_i128_with_scale median PRECISION)

/-- `PullFeedAccountData::value()`. -/
def PullFeedAccountData.value? (self : PullFeedAccountData) : Option Decimal :=
  self.result.value?

/-- `PullFeedAccountData::std_dev()`. -/
def PullFeedAccountData.std_dev? (self : PullFeedAccountData) : Option Decimal :=
  self.result.std_dev?

/-- `PullFeedAccountData::mean()`. -/
def PullFeedAccountData.mean? (self : PullFeedAccountData) : Option Decimal :=
  self.result.mean?

/-- `PullFeedAccountData::range()`. -/
def PullFeedAccountData.range? (self : PullFeedAccountData) : Option Decimal :=
  self.result.range?

/-- `PullFeedAccountData::min_value()`. -/
def PullFeedAccountData.min_value? (self : PullFeedAccountData) : Option Decimal :=
  self.result.min_value?

/-- `PullFeedAccountData::max_value()`. -/
def PullFeedAccountData.max_value? (self : PullFeedAccountData) : Option Decimal :=
  self.result.max_value?

/-- A byte slice `bytes[off .. off + len]`. -/
def byteSlice (bytes : List Nat) (off len : Nat) : List Nat :=
  (bytes.drop off).take len

/-- Little-endian value of a byte list. -/
def leNat (bs : List Nat) : Nat :=
  bs.foldr (fun b acc => b + 256 * acc) 0

/-- Little-endian unsigned read of `len` bytes at `off`. -/
def readLE (bytes : List Nat) (off len : Nat) : Nat :=
  leNat (byteSlice bytes off len)

/-- Reinterpret a `w`-bit unsigned value as two's-complement signed. -/
def toSigned (w : Nat) (v : Nat) : Int :=
  if v < 2 ^ (w - 1) then (v : Int) else (v : Int) - 2 ^ w

/-- Little-endian two's-complement signed read of `len` bytes at `off`. -/
def readLEi (bytes : List Nat) (off len : Nat) : Int :=
  toSigned (8 * len) (readLE bytes off len)

/-- The bytes of one `OracleSubmission` at relative offset `off`
(`repr(C)`: oracle 0, slot 32, padding 40, value 48; 64 bytes). -/
def decodeOracleSubmission (bytes : List Nat) (off : Nat) : OracleSubmission :=
  { oracle := byteSlice bytes off 32
    slot := readLE bytes (off + 32) 8
    padding1 := byteSlice bytes (off + 40) 8
    value := readLEi bytes (off + 48) 16 }

/-- The bytes of a `CurrentResult` at relative offset `off`
(six `i128`, 8 padding bytes, three `u64`; 128 bytes). -/
def decodeCurrentResult (bytes : List Nat) (off : Nat) : CurrentResult :=
  { value := readLEi bytes off 16
    std_dev := readLEi bytes (off + 16) 16
    mean := readLEi bytes (off + 32) 16
    range := readLEi bytes (off + 48) 16
    min_value := readLEi bytes (off + 64) 16
    max_value := readLEi bytes (off + 80) 16
    padding1 := byteSlice bytes (off + 96) 8
    slot := readLE bytes (off + 104) 8
    min_slot := readLE bytes (off + 112) 8
    max_slot := readLE bytes (off + 120) 8 }

/-- The bytes of a `CompactResult` at relative offset `off`
(two `f32` bit patterns, one `u64`; 16 bytes). -/
def decodeCompactResult (bytes : List Nat) (off : Nat) : CompactResult :=
  { std_dev := readLE bytes off 4
    mean := readLE bytes (off + 4) 4
    slot := readLE bytes (off + 8) 8 }

/-- `std::mem::size_of::<PullFeedAccountData>()`: 32 × 64 submission bytes,
32 + 32 + 32 pubkey/hash bytes, the scalar fields with their explicit padding,
the 128-byte `CurrentResult`, 32 × 16 `CompactResult` bytes and the reserved
buffers — 3200 in total, with no implicit padding (the struct is `Pod`). -/
def RECORD_SIZE : Nat := 3200

/-- The `bytemuck::from_bytes` reinterpretation of a `RECORD_SIZE`-byte slice
as a `PullFeedAccountData`, field by field at the `repr(C)` offsets. -/
def decodeRecord (bytes : List Nat) : PullFeedAccountData :=
  { submissions := (List.range 32).map (fun i => decodeOracleSubmission bytes (64 * i))
    authority := byteSlice bytes 2048 32
    queue := byteSlice bytes 2080 32
    feed_hash := byteSlice bytes 2112 32
    initialized_at := readLEi bytes 2144 8
    permissions := readLE bytes 2152 8
    max_variance := readLE bytes 2160 8
    min_responses := readLE bytes 2168 4
    name := byteSlice bytes 2172 32
    padding1 := byteSlice bytes 2204 2
    historical_result_idx := readLE bytes 2206 1
    min_sample_size := readLE bytes 2207 1
    last_update_timestamp := readLEi bytes 2208 8
    lut_slot := readLE bytes 2216 8
    _reserved1 := byteSlice bytes 2224 32
    result := decodeCurrentResult bytes 2256
    max_staleness := readLE bytes 2384 4
    padding2 := byteSlice bytes 2388 12
    historical_results := (List.range 32).map (fun i => decodeCompactResult bytes (2400 + 16 * i))
    _ebuf4 := byteSlice bytes 2912 8
    _ebuf3 := byteSlice bytes 2920 24
    _ebuf2 := byteSlice bytes 2944 256 }

/-- `PullFeedAccountData::discriminator()`. -/
def PullFeedAccountData.discriminator : List Nat :=
  [196, 27, 108, 196, 10, 215, 219, 40]

/-- Outcome of `PullFeedAccountData::parse`.  Rust's slice expression
`&data[8..size_of::<Self>() + 8]` aborts (panics) when the buffer is shorter
than `size_of + 8`; that abort is a distinct observable outcome. -/
inductive ParseResult where
  | ok (r : PullFeedAccountData)
  | err (e : OnDemandError)
  | panic

/-- `PullFeedAccountData::parse`: length check, discriminator comparison, then
the zero-copy cast of the following `RECORD_SIZE` bytes. -/
def PullFeedAccountData.parse (data : List Nat) : ParseResult :=
  if data.length < PullFeedAccountData.discriminator.length then
    .err .InvalidDiscriminator
  else if data.take 8 ≠ PullFeedAccountData.discriminator then
    .err .InvalidDiscriminator
  else if data.length < RECORD_SIZE + 8 then
    .panic
  else
    .ok (decodeRecord (byteSlice data 8 RECORD_SIZE))

/-- `parse` with the borrowed buffer threaded explicitly: the source only ever
reads the buffer (the length check, the copy of the first eight bytes into a
local array, and the reinterpreting view), so the buffer after the call is the
input buffer. -/
def PullFeedAccountData.parse_tr (data : List Nat) : ParseResult × List Nat :=
  (PullFeedAccountData.parse data, data)

/-- Sorting a list that is a permutation of an already-sorted list `s`
recovers exactly `s` (ascending order on `Int` is antisymmetric). -/
theorem insertionSort_eq_of_perm_sorted (l s : List Int) (hp : l.Perm s)
    (hs : List.Sorted (fun a b => (a : Int) ≤ b) s) :
    List.insertionSort (fun a b => a ≤ b) l = s :=
  List.eq_of_perm_of_sorted ((List.perm_insertionSort _ l).trans hp)
    (List.sorted_insertionSort _ l) hs

/-- A non-empty list always has a lower-bound median. -/
theorem lower_bound_median_eq_some (l : List Int) (h : l ≠ []) :
    ∃ m, lower_bound_median l = some m := by
  have hlen : (List.insertionSort (fun a b => (a : Int) ≤ b) l).length = l.length :=
    (List.perm_insertionSort _ l).length_eq
  have hpos : 0 < l.length := List.length_pos.mpr h
  simp only [lower_bound_median, lower_bound_median_state]
  rw [if_neg (by omega)]
  have hbound : (List.insertionSort (fun a b => (a : Int) ≤ b) l).length / 2 <
      (List.insertionSort (fun a b => (a : Int) ≤ b) l).length := by
    omega
  exact ⟨_, List.getElem?_eq_getElem hbound⟩

/-- Claim C1: for every list of values, `lower_bound_median` returns the entry
at zero-based index `len / 2` of the ascending-sorted version of the list
(`some` of it when the list is non-empty, the upper of the two middle entries
for even length), and `none` for the empty list. -/
theorem lower_bound_median_spec (l s : List Int) (hp : l.Perm s)
    (hs : List.Sorted (fun a b => (a : Int) ≤ b) s) :
    lower_bound_median l = s[l.length / 2]? ∧
    (l = [] → lower_bound_median l = none) ∧
    (l ≠ [] → ∃ v, lower_bound_median l = some v ∧ s[l.length / 2]? = some v) := by
  have hsort := insertionSort_eq_of_perm_sorted l s hp hs
  have hlen : s.length = l.length := hp.length_eq.symm
  have h1 : lower_bound_median l = s[l.length / 2]? := by
    simp only [lower_bound_median, lower_bound_median_state, hsort]
    by_cases h0 : s.length = 0
    · rw [if_pos h0]
      rw [List.length_eq_zero.mp h0]
      simp
    · rw [if_neg h0, hlen]
  refine ⟨h1, ?_, ?_⟩
  · intro he
    subst he
    rfl
  · intro hne
    have hpos : 0 < l.length := List.length_pos.mpr hne
    have hbound : l.length / 2 < s.length := by omega
    exact ⟨s.get ⟨l.length / 2, hbound⟩, by rw [h1, List.getElem?_eq_getElem hbound]; rfl,
      by rw [List.getElem?_eq_getElem hbound]; rfl⟩

/-- Witness for C1 at the spec's own example `[5, 1, 3]`, whose ascending
sort is `[1, 3, 5]` and whose lower-bound median is `3`. -/
theorem lower_bound_median_spec_witness :
    lower_bound_median [5, 1, 3] = ([1, 3, 5] : List Int)[([5, 1, 3] : List Int).length / 2]? ∧
    (([5, 1, 3] : List Int) = [] → lower_bound_median [5, 1, 3] = none) ∧
    (([5, 1, 3] : List Int) ≠ [] →
      ∃ v, lower_bound_median [5, 1, 3] = some v ∧
        ([1, 3, 5] : List Int)[([5, 1, 3] : List Int).length / 2]? = some v) :=
  lower_bound_median_spec [5, 1, 3] [1, 3, 5] (by decide) (by decide)

/-- Claim C10: `lower_bound_median` sorts the caller's vector in place — after
the call the vector is an ascending reordering of its original elements,
whatever the returned value (including `none`). -/
theorem lower_bound_median_sorts_in_place (l : List Int) :
    (lower_bound_median_state l).1.Perm l ∧
    List.Sorted (fun a b => (a : Int) ≤ b) (lower_bound_median_state l).1 := by
  constructor
  · exact List.perm_insertionSort _ l
  · exact List.sorted_insertionSort _ l

/-- The all-zero (empty-sentinel) submission. -/
def emptySubmission : OracleSubmission :=
  { oracle := List.replicate 32 0, slot := 0, padding1 := List.replicate 8 0, value := 0 }

/-- A populated submission with the given slot and value. -/
def mkSubmission (slot : Nat) (value : Int) : OracleSubmission :=
  { oracle := List.replicate 32 0, slot := slot, padding1 := List.replicate 8 0, value := value }

/-- An all-zero stored result (`result_slot = 0`, i.e. never computed). -/
def zeroResult : CurrentResult :=
  { value := 0, std_dev := 0, mean := 0, range := 0, min_value := 0, max_value := 0,
    padding1 := List.replicate 8 0, slot := 0, min_slot := 0, max_slot := 0 }

/-- A record whose ledger holds the given submissions followed by empty
sentinels up to capacity 32. -/
def mkRecord (subs : List OracleSubmission) : PullFeedAccountData :=
  { submissions := subs ++ List.replicate (32 - subs.length) emptySubmission
    authority := List.replicate 32 0
    queue := List.replicate 32 0
    feed_hash := List.replicate 32 0
    initialized_at := 0
    permissions := 0
    max_variance := 0
    min_responses := 0
    name := List.replicate 32 0
    padding1 := List.replicate 2 0
    historical_result_idx := 0
    min_sample_size := 0
    last_update_timestamp := 0
    lut_slot := 0
    _reserved1 := List.replicate 32 0
    result := zeroResult
    max_staleness := 0
    padding2 := List.replicate 12 0
    historical_results := List.replicate 32 { std_dev := 0, mean := 0, slot := 0 }
    _ebuf4 := List.replicate 8 0
    _ebuf3 := List.replicate 24 0
    _ebuf2 := List.replicate 256 0 }

/-- The spec's example ledger: slots 10, 11, 12 with values 100, 200, 300. -/
def testRecord : PullFeedAccountData :=
  mkRecord [mkSubmission 10 100, mkSubmission 11 200, mkSubmission 12 300]

/-- The spec's negative-value example: a single submission of value `-50`. -/
def negRecord : PullFeedAccountData :=
  mkRecord [mkSubmission 10 (-50)]

/-- `get_value` with its local `let` unfolded. -/
theorem get_value_eq (p : PullFeedAccountData) (c : Clock) (ms mn : Nat)
    (op : Bool) :
    p.get_value c ms mn op =
      (if (p.retained c.slot ms).length < mn then .error .NotEnoughSamples
       else
        match lower_bound_median ((p.retained c.slot ms).map (fun s => s.value)) with
        | none => .error .NotEnoughSamples
        | some median =>
          if op && decide (median ≤ 0) then .error .IllegalFeedValue
          else .ok (Decimal.from_i128_with_scale median PRECISION)) :=
  rfl

/-- Claim C2: the freshness filter of `get_value` keeps exactly the populated-
prefix submissions whose slot exceeds `current_slot - max_staleness` computed
with wrapping (mod `2 ^ 64`) unsigned subtraction; when
`max_staleness > current_slot` the threshold wraps to `2 ^ 64 - (ms - cs)` and
every populated submission with a slot at or below it is excluded. -/
theorem get_value_staleness_filter (p : PullFeedAccountData) (cs ms : Nat)
    (hcs : cs < 2 ^ 64) (hms : ms < 2 ^ 64) :
    p.retained cs ms =
      (p.submissions.takeWhile (fun s => ! s.is_empty)).filter
        (fun s => decide ((cs + (2 ^ 64 - ms)) % 2 ^ 64 < s.slot)) ∧
    (cs < ms → ∀ s ∈ p.submissions.takeWhile (fun s => ! s.is_empty),
        s.slot ≤ 2 ^ 64 - (ms - cs) → s ∉ p.retained cs ms) := by
  have hthr : u64_wrapping_sub cs ms = (cs + (2 ^ 64 - ms)) % 2 ^ 64 := by
    unfold u64_wrapping_sub
    rw [Nat.mod_eq_of_lt hms]
  constructor
  · unfold PullFeedAccountData.retained
    simp only [hthr]
  · intro hlt s _ hslot hcontra
    have hpred := (List.mem_filter.mp hcontra).2
    rw [decide_eq_true_eq] at hpred
    have hthr2 : u64_wrapping_sub cs ms = 2 ^ 64 - (ms - cs) := by
      unfold u64_wrapping_sub
      rw [Nat.mod_eq_of_lt hms, Nat.mod_eq_of_lt (by omega)]
      omega
    omega

/-- Witness for C2 at the spec's example record with `current_slot = 12`,
`max_staleness = 5`. -/
theorem get_value_staleness_filter_witness :
    testRecord.retained 12 5 =
      (testRecord.submissions.takeWhile (fun s => ! s.is_empty)).filter
        (fun s => decide ((12 + (2 ^ 64 - 5)) % 2 ^ 64 < s.slot)) ∧
    (12 < 5 → ∀ s ∈ testRecord.submissions.takeWhile (fun s => ! s.is_empty),
        s.slot ≤ 2 ^ 64 - (5 - 12) → s ∉ testRecord.retained 12 5) :=
  get_value_staleness_filter testRecord 12 5 (by decide) (by decide)

/-- Claim C3: `get_value` fails with `NotEnoughSamples` exactly when the
retained submission count is below `min_samples` or the retained set is empty
(the latter even when `min_samples = 0`); no partial result is produced. -/
theorem get_value_not_enough_samples (p : PullFeedAccountData) (c : Clock)
    (ms mn : Nat) (op : Bool) :
    p.get_value c ms mn op = .error .NotEnoughSamples ↔
      ((p.retained c.slot ms).length < mn ∨ p.retained c.slot ms = []) := by
  rw [get_value_eq]
  by_cases hlt : (p.retained c.slot ms).length < mn
  · simp [hlt]
  · rw [if_neg hlt]
    by_cases hne : p.retained c.slot ms = []
    · rw [hne]
      simp [lower_bound_median, lower_bound_median_state, List.insertionSort]
    · obtain ⟨m, hm⟩ := lower_bound_median_eq_some
        ((p.retained c.slot ms).map (fun s => s.value))
        (by rw [Ne, List.map_eq_nil_iff]; exact hne)
      rw [hm]
      have hno : (if op && decide (m ≤ 0) then
          (.error .IllegalFeedValue : Except OnDemandError Decimal)
          else .ok (Decimal.from_i128_with_scale m PRECISION)) ≠
          .error .NotEnoughSamples := by
        split <;> simp
      exact iff_of_false hno (by simp [hlt, hne])

/-- Claim C4: when the retained count meets `min_samples` and the retained set
is non-empty, `get_value` fails with `IllegalFeedValue` if `only_positive` is
set and the lower-bound median of the retained values is `≤ 0`, and otherwise
returns `Ok` of that median as a fixed-point decimal at scale `10 ^ 18`. -/
theorem get_value_median_result (p : PullFeedAccountData) (c : Clock)
    (ms mn : Nat) (op : Bool)
    (hlen : mn ≤ (p.retained c.slot ms).length)
    (hne : p.retained c.slot ms ≠ []) :
    ∃ m, lower_bound_median ((p.retained c.slot ms).map (fun s => s.value)) = some m ∧
      p.get_value c ms mn op =
        (if op = true ∧ m ≤ 0 then .error .IllegalFeedValue
         else .ok (Decimal.from_i128_with_scale m PRECISION)) := by
  obtain ⟨m, hm⟩ := lower_bound_median_eq_some
    ((p.retained c.slot ms).map (fun s => s.value))
    (by rw [Ne, List.map_eq_nil_iff]; exact hne)
  refine ⟨m, hm, ?_⟩
  rw [get_value_eq, if_neg (by omega), hm]
  cases op <;> by_cases hm0 : m ≤ 0 <;> simp [hm0]

/-- Witness for C4 at the spec's negative-value example: one retained
submission of value `-50`, `only_positive` set, yielding `IllegalFeedValue`. -/
theorem get_value_median_result_witness :
    ∃ m, lower_bound_median ((negRecord.retained 12 5).map (fun s => s.value)) = some m ∧
      negRecord.get_value ⟨12⟩ 5 1 true =
        (if True ∧ m ≤ 0 then .error .IllegalFeedValue
         else .ok (Decimal.from_i128_with_scale m PRECISION)) := by
  have h := get_value_median_result negRecord ⟨12⟩ 5 1 true (by decide) (by decide)
  simpa using h

/-- Slicing a slice re-indexes into the original buffer. -/
theorem byteSlice_byteSlice (l : List Nat) (a n b m : Nat) (h : b + m ≤ n) :
    byteSlice (byteSlice l a n) b m = byteSlice l (a + b) m := by
  unfold byteSlice
  rw [List.drop_take, List.drop_drop, List.take_take, min_eq_left (by omega)]

/-- Reading inside the record slice is reading the buffer at `8 +` the
relative offset. -/
theorem byteSlice_inner (data : List Nat) (k j n : Nat) (hk : k + n ≤ RECORD_SIZE)
    (hj : j = 8 + k) :
    byteSlice (byteSlice data 8 RECORD_SIZE) k n = byteSlice data j n := by
  subst hj
  exact byteSlice_byteSlice data 8 RECORD_SIZE k n hk

/-- Unsigned read inside the record slice, re-indexed to the buffer. -/
theorem readLE_inner (data : List Nat) (k j n : Nat) (hk : k + n ≤ RECORD_SIZE)
    (hj : j = 8 + k) :
    readLE (byteSlice data 8 RECORD_SIZE) k n = readLE data j n := by
  unfold readLE
  rw [byteSlice_inner data k j n hk hj]

/-- Signed read inside the record slice, re-indexed to the buffer. -/
theorem readLEi_inner (data : List Nat) (k j n : Nat) (hk : k + n ≤ RECORD_SIZE)
    (hj : j = 8 + k) :
    readLEi (byteSlice data 8 RECORD_SIZE) k n = readLEi data j n := by
  unfold readLEi
  rw [readLE_inner data k j n hk hj]

/-- Claim C5: a buffer shorter than 8 bytes, or one whose first 8 bytes differ
from the fixed discriminator, is rejected with `InvalidDiscriminator`. -/
theorem parse_invalid_discriminator (data : List Nat)
    (h : data.length < 8 ∨ data.take 8 ≠ PullFeedAccountData.discriminator) :
    PullFeedAccountData.parse data = .err .InvalidDiscriminator := by
  unfold PullFeedAccountData.parse
  rcases h with h | h
  · rw [if_pos (by simpa [PullFeedAccountData.discriminator] using h)]
  · by_cases h8 : data.length < PullFeedAccountData.discriminator.length
    · rw [if_pos h8]
    · rw [if_neg h8, if_pos h]

/-- Witness for C5 at the empty buffer. -/
theorem parse_invalid_discriminator_witness :
    PullFeedAccountData.parse [] = .err .InvalidDiscriminator :=
  parse_invalid_discriminator [] (Or.inl (by decide))

/-- Counterexample for C6: the 8-byte buffer that is exactly the discriminator
matches the tag and has length ≥ 8, yet `parse` neither returns `Ok` nor
`InvalidDiscriminator` — the slice `&data[8..size_of + 8]` aborts. -/
theorem parse_panics_on_short_buffer :
    8 ≤ PullFeedAccountData.discriminator.length ∧
    PullFeedAccountData.parse PullFeedAccountData.discriminator = .panic :=
  ⟨by decide, rfl⟩

/-- Claim C6 (amended): for buffers of length ≥ 8 + `size_of::<FeedRecord>()`,
`parse` either returns `Ok` or fails with `InvalidDiscriminator`; a buffer of
length ≥ 8 whose first 8 bytes match the discriminator but which is shorter
than 8 + `size_of` makes the record slice panic instead. -/
theorem parse_outcomes (data : List Nat) (h8 : 8 ≤ data.length) :
    (RECORD_SIZE + 8 ≤ data.length →
      (∃ r, PullFeedAccountData.parse data = .ok r) ∨
        PullFeedAccountData.parse data = .err .InvalidDiscriminator) ∧
    (data.take 8 = PullFeedAccountData.discriminator →
      data.length < RECORD_SIZE + 8 →
      PullFeedAccountData.parse data = .panic) := by
  have hnot : ¬ data.length < PullFeedAccountData.discriminator.length := by
    simp only [PullFeedAccountData.discriminator]
    simp only [List.length_cons, List.length_nil]
    omega
  constructor
  · intro hlen
    by_cases hd : data.take 8 = PullFeedAccountData.discriminator
    · left
      unfold PullFeedAccountData.parse
      rw [if_neg hnot, if_neg (not_not_intro hd), if_neg (by omega)]
      exact ⟨_, rfl⟩
    · right
      unfold PullFeedAccountData.parse
      rw [if_neg hnot, if_pos hd]
  · intro hd hshort
    unfold PullFeedAccountData.parse
    rw [if_neg hnot, if_neg (not_not_intro hd), if_pos hshort]

/-- A full-size well-formed buffer: the discriminator followed by an all-zero
record body. -/
def fullBuf : List Nat :=
  PullFeedAccountData.discriminator ++ List.replicate RECORD_SIZE 0

/-- The full-size buffer has exactly `RECORD_SIZE + 8` bytes. -/
theorem fullBuf_length : fullBuf.length = RECORD_SIZE + 8 := by
  unfold fullBuf
  rw [List.length_append, List.length_replicate]
  decide

/-- Witness for the amended C6 at a full-size buffer. -/
theorem parse_outcomes_witness :
    (∃ r, PullFeedAccountData.parse fullBuf = .ok r) ∨
      PullFeedAccountData.parse fullBuf = .err .InvalidDiscriminator :=
  (parse_outcomes fullBuf
      (by rw [fullBuf_length]; exact Nat.le_add_left 8 RECORD_SIZE)).1
    (by rw [fullBuf_length])

/-- Claim C9: decoding is deterministic and read-only — parsing bit-identical
buffer contents yields bit-identical views, and the buffer after the call is
the input buffer. -/
theorem parse_deterministic_readonly (d1 d2 : List Nat) (h : d1 = d2) :
    (PullFeedAccountData.parse_tr d1).1 = (PullFeedAccountData.parse_tr d2).1 ∧
    (PullFeedAccountData.parse_tr d1).2 = d1 := by
  subst h
  exact ⟨rfl, rfl⟩

/-- Witness for C9 at the full-size buffer. -/
theorem parse_deterministic_readonly_witness :
    (PullFeedAccountData.parse_tr fullBuf).1 = (PullFeedAccountData.parse_tr fullBuf).1 ∧
    (PullFeedAccountData.parse_tr fullBuf).2 = fullBuf :=
  parse_deterministic_readonly fullBuf fullBuf rfl

/-- Claim C7: on a buffer whose first 8 bytes are the discriminator and whose
length is at least `8 + size_of::<PullFeedAccountData>()`, `parse` succeeds
and every field of the view is the little-endian value of the buffer bytes at
its fixed `repr(C)` offset right after the 8-byte tag: the 32 × 64-byte
submissions first, then authority, queue, feed hash and the remaining fields
in declared order, padding and reserved bytes included. -/
theorem parse_layout (data : List Nat)
    (hdisc : data.take 8 = PullFeedAccountData.discriminator)
    (hlen : RECORD_SIZE + 8 ≤ data.length) :
    PullFeedAccountData.parse data = .ok
      { submissions := (List.range 32).map (fun i =>
          { oracle := byteSlice data (8 + 64 * i) 32
            slot := readLE data (40 + 64 * i) 8
            padding1 := byteSlice data (48 + 64 * i) 8
            value := readLEi data (56 + 64 * i) 16 })
        authority := byteSlice data 2056 32
        queue := byteSlice data 2088 32
        feed_hash := byteSlice data 2120 32
        initialized_at := readLEi data 2152 8
        permissions := readLE data 2160 8
        max_variance := readLE data 2168 8
        min_responses := readLE data 2176 4
        name := byteSlice data 2180 32
        padding1 := byteSlice data 2212 2
        historical_result_idx := readLE data 2214 1
        min_sample_size := readLE data 2215 1
        last_update_timestamp := readLEi data 2216 8
        lut_slot := readLE data 2224 8
        _reserved1 := byteSlice data 2232 32
        result :=
          { value := readLEi data 2264 16
            std_dev := readLEi data 2280 16
            mean := readLEi data 2296 16
            range := readLEi data 2312 16
            min_value := readLEi data 2328 16
            max_value := readLEi data 2344 16
            padding1 := byteSlice data 2360 8
            slot := readLE data 2368 8
            min_slot := readLE data 2376 8
            max_slot := readLE data 2384 8 }
        max_staleness := readLE data 2392 4
        padding2 := byteSlice data 2396 12
        historical_results := (List.range 32).map (fun i =>
          { std_dev := readLE data (2408 + 16 * i) 4
            mean := readLE data (2412 + 16 * i) 4
            slot := readLE data (2416 + 16 * i) 8 })
        _ebuf4 := byteSlice data 2920 8
        _ebuf3 := byteSlice data 2928 24
        _ebuf2 := byteSlice data 2952 256 } := by
  have hnot : ¬ data.length < PullFeedAccountData.discriminator.length := by
    simp only [PullFeedAccountData.discriminator, List.length_cons, List.length_nil]
    omega
  unfold PullFeedAccountData.parse
  rw [if_neg hnot, if_neg (not_not_intro hdisc), if_neg (by omega)]
  congr 1
  simp only [decodeRecord, PullFeedAccountData.mk.injEq]
  refine ⟨?_, ?_, ?_, ?_, ?_, ?_, ?_, ?_, ?_, ?_, ?_,
    ?_, ?_, ?_, ?_, ?_, ?_, ?_, ?_, ?_, ?_, ?_⟩
  · refine List.map_congr_left ?_
    intro i hi
    have hi32 : i < 32 := List.mem_range.mp hi
    simp only [decodeOracleSubmission, OracleSubmission.mk.injEq]
    refine ⟨?_, ?_, ?_, ?_⟩
    · exact byteSlice_inner data (64 * i) (8 + 64 * i) 32
        (by simp only [RECORD_SIZE]; omega) (by omega)
    · exact readLE_inner data (64 * i + 32) (40 + 64 * i) 8
        (by simp only [RECORD_SIZE]; omega) (by omega)
    · exact byteSlice_inner data (64 * i + 40) (48 + 64 * i) 8
        (by simp only [RECORD_SIZE]; omega) (by omega)
    · exact readLEi_inner data (64 * i + 48) (56 + 64 * i) 16
        (by simp only [RECORD_SIZE]; omega) (by omega)
  · exact byteSlice_inner data 2048 2056 32 (by decide) (by decide)
  · exact byteSlice_inner data 2080 2088 32 (by decide) (by decide)
  · exact byteSlice_inner data 2112 2120 32 (by decide) (by decide)
  · exact readLEi_inner data 2144 2152 8 (by decide) (by decide)
  · exact readLE_inner data 2152 2160 8 (by decide) (by decide)
  · exact readLE_inner data 2160 2168 8 (by decide) (by decide)
  · exact readLE_inner data 2168 2176 4 (by decide) (by decide)
  · exact byteSlice_inner data 2172 2180 32 (by decide) (by decide)
  · exact byteSlice_inner data 2204 2212 2 (by decide) (by decide)
  · exact readLE_inner data 2206 2214 1 (by decide) (by decide)
  · exact readLE_inner data 2207 2215 1 (by decide) (by decide)
  · exact readLEi_inner data 2208 2216 8 (by decide) (by decide)
  · exact readLE_inner data 2216 2224 8 (by decide) (by decide)
  · exact byteSlice_inner data 2224 2232 32 (by decide) (by decide)
  · simp only [decodeCurrentResult, CurrentResult.mk.injEq]
    refine ⟨?_, ?_, ?_, ?_, ?_, ?_, ?_, ?_, ?_, ?_⟩
    · exact readLEi_inner data 2256 2264 16 (by decide) (by decide)
    · exact readLEi_inner data 2272 2280 16 (by decide) (by decide)
    · exact readLEi_inner data 2288 2296 16 (by decide) (by decide)
    · exact readLEi_inner data 2304 2312 16 (by decide) (by decide)
    · exact readLEi_inner data 2320 2328 16 (by decide) (by decide)
    · exact readLEi_inner data 2336 2344 16 (by decide) (by decide)
    · exact byteSlice_inner data 2352 2360 8 (by decide) (by decide)
    · exact readLE_inner data 2360 2368 8 (by decide) (by decide)
    · exact readLE_inner data 2368 2376 8 (by decide) (by decide)
    · exact readLE_inner data 2376 2384 8 (by decide) (by decide)
  · exact readLE_inner data 2384 2392 4 (by decide) (by decide)
  · exact byteSlice_inner data 2388 2396 12 (by decide) (by decide)
  · refine List.map_congr_left ?_
    intro i hi
    have hi32 : i < 32 := List.mem_range.mp hi
    simp only [decodeCompactResult, CompactResult.mk.injEq]
    refine ⟨?_, ?_, ?_⟩
    · exact readLE_inner data (2400 + 16 * i) (2408 + 16 * i) 4
        (by simp only [RECORD_SIZE]; omega) (by omega)
    · exact readLE_inner data (2400 + 16 * i + 4) (2412 + 16 * i) 4
        (by simp only [RECORD_SIZE]; omega) (by omega)
    · exact readLE_inner data (2400 + 16 * i + 8) (2416 + 16 * i) 8
        (by simp only [RECORD_SIZE]; omega) (by omega)
  · exact byteSlice_inner data 2912 2920 8 (by decide) (by decide)
  · exact byteSlice_inner data 2920 2928 24 (by decide) (by decide)
  · exact byteSlice_inner data 2944 2952 256 (by decide) (by decide)

/-- Witness for C7 at the full-size well-formed buffer. -/
theorem parse_layout_witness :
    PullFeedAccountData.parse fullBuf = .ok
      { submissions := (List.range 32).map (fun i =>
          { oracle := byteSlice fullBuf (8 + 64 * i) 32
            slot := readLE fullBuf (40 + 64 * i) 8
            padding1 := byteSlice fullBuf (48 + 64 * i) 8
            value := readLEi fullBuf (56 + 64 * i) 16 })
        authority := byteSlice fullBuf 2056 32
        queue := byteSlice fullBuf 2088 32
        feed_hash := byteSlice fullBuf 2120 32
        initialized_at := readLEi fullBuf 2152 8
        permissions := readLE fullBuf 2160 8
        max_variance := readLE fullBuf 2168 8
        min_responses := readLE fullBuf 2176 4
        name := byteSlice fullBuf 2180 32
        padding1 := byteSlice fullBuf 2212 2
        historical_result_idx := readLE fullBuf 2214 1
        min_sample_size := readLE fullBuf 2215 1
        last_update_timestamp := readLEi fullBuf 2216 8
        lut_slot := readLE fullBuf 2224 8
        _reserved1 := byteSlice fullBuf 2232 32
        result :=
          { value := readLEi fullBuf 2264 16
            std_dev := readLEi fullBuf 2280 16
            mean := readLEi fullBuf 2296 16
            range := readLEi fullBuf 2312 16
            min_value := readLEi fullBuf 2328 16
            max_value := readLEi fullBuf 2344 16
            padding1 := byteSlice fullBuf 2360 8
            slot := readLE fullBuf 2368 8
            min_slot := readLE fullBuf 2376 8
            max_slot := readLE fullBuf 2384 8 }
        max_staleness := readLE fullBuf 2392 4
        padding2 := byteSlice fullBuf 2396 12
        historical_results := (List.range 32).map (fun i =>
          { std_dev := readLE fullBuf (2408 + 16 * i) 4
            mean := readLE fullBuf (2412 + 16 * i) 4
            slot := readLE fullBuf (2416 + 16 * i) 8 })
        _ebuf4 := byteSlice fullBuf 2920 8
        _ebuf3 := byteSlice fullBuf 2928 24
        _ebuf2 := byteSlice fullBuf 2952 256 } :=
  parse_layout fullBuf rfl (by rw [fullBuf_length])

/-- Claim C8: each direct accessor of the stored result — the six scaled
values on the record and the three slot readers on `CurrentResult` — returns
`none` exactly when the stored `slot` is `0`, and otherwise `some` of the
corresponding stored field (scaled decimal for values, raw `u64` for slots). -/
theorem accessors_absent_or_value (p : PullFeedAccountData) :
    p.value? = (if p.result.slot = 0 then none
      else some (Decimal.from_i128_with_scale p.result.value PRECISION)) ∧
    p.std_dev? = (if p.result.slot = 0 then none
      else some (Decimal.from_i128_with_scale p.result.std_dev PRECISION)) ∧
    p.mean? = (if p.result.slot = 0 then none
      else some (Decimal.from_i128_with_scale p.result.mean PRECISION)) ∧
    p.range? = (if p.result.slot = 0 then none
      else some (Decimal.from_i128_with_scale p.result.range PRECISION)) ∧
    p.min_value? = (if p.result.slot = 0 then none
      else some (Decimal.from_i128_with_scale p.result.min_value PRECISION)) ∧
    p.max_value? = (if p.result.slot = 0 then none
      else some (Decimal.from_i128_with_scale p.result.max_value PRECISION)) ∧
    p.result.result_slot? = (if p.result.slot = 0 then none else some p.result.slot) ∧
    p.result.min_slot? = (if p.result.slot = 0 then none else some p.result.min_slot) ∧
    p.result.max_slot? = (if p.result.slot = 0 then none else some p.result.max_slot) :=
  ⟨rfl, rfl, rfl, rfl, rfl, rfl, rfl, rfl, rfl⟩
